import Mathlib

/-!
Verification development for the mall-surveillance front end
(`src/static/js/main.js`).  The front end is a single-page application:
Firebase auth glue, hash routing, status polling, Socket.IO push events
and a siren debouncer.  Each JavaScript function relevant to the claims
is shallowly embedded below as a pure Lean function; doc comments cite
the source lines the definition is read from.
-/

namespace MallSurveillance

/- ## Siren (main.js lines 40-67) -/

/-- `HIGH_LABELS` from main.js line 41: the labels the siren reacts to. -/
def HIGH_LABELS : List String :=
  ["weapons", "weapon", "other_coverings", "otherCoverings", "other_Coverings"]

/-- `SIREN_COOLDOWN_MS` from main.js line 45. -/
def SIREN_COOLDOWN_MS : Int := 3000

/-- One element of `payload.detections`.  Only the `label` field is read by
`maybePlaySiren`; `label : Option String` models a possibly-absent field,
and the JavaScript truthiness test `d.label` additionally rejects the
empty string. -/
structure Detection where
  label : Option String
deriving DecidableEq

/-- The payload of a `high_threat` socket event as `maybePlaySiren` reads
it (main.js lines 47-55): an optional `label` field and an optional
`detections` array whose elements may themselves be null. -/
structure SirenPayload where
  label : Option String
  detections : Option (List (Option Detection))
deriving DecidableEq

/-- JavaScript truthiness of a label followed by `HIGH_LABELS.has`:
`x && HIGH_LABELS.has(x)` (main.js lines 51 and 54).  An absent label and
the empty string are falsy. -/
def labelIsHigh (l : Option String) : Bool :=
  match l with
  | none => false
  | some s => s ≠ "" && HIGH_LABELS.contains s

/-- The `isHigh` computation of main.js lines 49-55: `payload.label` is
checked first; only when that test fails does the code inspect
`payload.detections` (and only when it is an array). -/
def isHighPayload (p : Option SirenPayload) : Bool :=
  match p with
  | none => false
  | some pl =>
    if labelIsHigh pl.label then true
    else match pl.detections with
      | some ds => ds.any (fun d =>
          match d with
          | none => false
          | some dd => labelIsHigh dd.label)
      | none => false

/-- The mutable state of the siren debouncer: `lastSirenAt`
(main.js line 44).  `Int` models the JavaScript number holding
`Date.now()` differences exactly for the comparison on line 60. -/
structure SirenState where
  lastSirenAt : Int
deriving DecidableEq

/-- `maybePlaySiren` (main.js lines 47-67) as a state transformer:
given whether the siren element exists, the debounce state, the current
time and the payload, it returns the new state and whether playback was
started.  The early returns on lines 48, 57 and 60 leave the state
unchanged and do not play; otherwise `lastSirenAt` is set to `now` and
the siren plays. -/
def maybePlaySiren (sirenElPresent : Bool) (st : SirenState) (now : Int)
    (p : Option SirenPayload) : SirenState × Bool :=
  if !sirenElPresent then (st, false)
  else if !isHighPayload p then (st, false)
  else if now - st.lastSirenAt < SIREN_COOLDOWN_MS then (st, false)
  else ({ lastSirenAt := now }, true)

/- ## api helper (main.js lines 135-151) -/

/-- The fields of a `fetch` response that `api` reads.  `textResult` is
the outcome of `res.text()` (`none` when that promise rejects, in which
case the `.catch` on line 147 substitutes `String(res.status)`);
`jsonResult` is the outcome of `res.json()`, which line 150 returns
directly, propagating a rejection.  `α` is the type of the parsed JSON
document. -/
structure HttpResponse (α : Type) where
  ok : Bool
  status : Nat
  textResult : Option String
  jsonResult : Except String α

/-- `api` (main.js lines 135-151), given the response the `fetch`
resolved to.  On a non-ok response the body text is read with the
fallback `String(res.status)`; the thrown message is
`text || ('HTTP ' + res.status)`, so an empty text falls through to the
`HTTP <status>` form.  On an ok response the result of `res.json()` is
returned as is. -/
def api {α : Type} (res : HttpResponse α) : Except String α :=
  if !res.ok then
    let text := res.textResult.getD (toString res.status)
    Except.error (if text = "" then "HTTP " ++ toString res.status else text)
  else
    res.jsonResult

/- ## Routing (main.js lines 229-250) -/

/-- The seven page renderers the `route` dispatch table can invoke
(main.js lines 241-247). -/
inductive Page where
  | adminDashboard
  | adminAlerts
  | adminActivity
  | adminCameras
  | adminSettings
  | personnelDashboard
  | personnelSettings
deriving DecidableEq, Fintype

/-- Whether a page is one of the admin renderers. -/
def Page.isAdmin : Page → Bool
  | .adminDashboard => true
  | .adminAlerts => true
  | .adminActivity => true
  | .adminCameras => true
  | .adminSettings => true
  | .personnelDashboard => false
  | .personnelSettings => false

/-- Whether a page is one of the personnel renderers. -/
def Page.isPersonnel (p : Page) : Bool := !p.isAdmin

/-- The outcome of one run of `route`: it shows the login screen,
invokes exactly one page renderer, or renders nothing and assigns
`location.hash` (main.js line 249). -/
inductive RouteResult where
  | showsLogin
  | renders (p : Page)
  | redirects (newHash : String)
deriving DecidableEq

/-- `const hash = location.hash || '#/login'` (main.js line 231): the
empty string defaults to `'#/login'`. -/
def normalizeHash (hash : String) : String :=
  if hash = "" then "#/login" else hash

/-- The hash literal each renderer branch of `route` matches
(main.js lines 241-247). -/
def pageHash : Page → String
  | .adminDashboard => "#/admin/dashboard"
  | .adminAlerts => "#/admin/alerts"
  | .adminActivity => "#/admin/activity"
  | .adminCameras => "#/admin/cameras"
  | .adminSettings => "#/admin/settings"
  | .personnelDashboard => "#/personnel/dashboard"
  | .personnelSettings => "#/personnel/settings"

/-- The role literal each renderer branch of `route` requires: admin
pages need `currentRole === 'admin'`, personnel pages
`currentRole === 'personnel'`. -/
def permitted (role : String) (p : Page) : Bool :=
  if p.isAdmin then role == "admin" else role == "personnel"

/-- `route` (main.js lines 229-250).  `signedIn` is `currentUser` being
non-null, `role` is `currentRole` and `hash` is `location.hash`.  Each
branch of the dispatch table requires both the hash literal and the role
literal; the fallthrough on line 249 assigns the dashboard hash chosen
by the ternary on `currentRole === 'admin'`. -/
def route (signedIn : Bool) (role : String) (hash : String) : RouteResult :=
  if !signedIn then .showsLogin
  else if normalizeHash hash = "#/admin/dashboard" && role = "admin" then
    .renders .adminDashboard
  else if normalizeHash hash = "#/admin/alerts" && role = "admin" then
    .renders .adminAlerts
  else if normalizeHash hash = "#/admin/activity" && role = "admin" then
    .renders .adminActivity
  else if normalizeHash hash = "#/admin/cameras" && role = "admin" then
    .renders .adminCameras
  else if normalizeHash hash = "#/admin/settings" && role = "admin" then
    .renders .adminSettings
  else if normalizeHash hash = "#/personnel/dashboard" && role = "personnel" then
    .renders .personnelDashboard
  else if normalizeHash hash = "#/personnel/settings" && role = "personnel" then
    .renders .personnelSettings
  else .redirects
    (if role = "admin" then "#/admin/dashboard" else "#/personnel/dashboard")

/- ## HTTP and socket surface (C3) -/

/-- Every `api(...)` call site in main.js with its path argument:
lines 178, 200, 262, 304, 328, 336, 371, 379, 413, 420, 449, 466, 477,
487, 515.  The first component names the enclosing function. -/
def apiCallSites : List (String × String) :=
  [("auth.onAuthStateChanged", "/api/start_cameras"),
   ("logoutBtn.click", "/api/stop_cameras"),
   ("attachLiveVideo.checkAndSwap", "/api/status"),
   ("startBrowserCamera.sendFrame", "/api/upload_frame"),
   ("renderAdminDashboard", "/api/status"),
   ("renderAdminDashboard.interval", "/api/status"),
   ("renderPersonnelDashboard", "/api/status"),
   ("renderPersonnelDashboard.interval", "/api/status"),
   ("renderPending.verify", "/api/alerts/resolve"),
   ("renderPending.dismiss", "/api/alerts/resolve"),
   ("renderAdminCameras.refresh", "/api/cameras"),
   ("renderAdminCameras.submit", "/api/cameras"),
   ("renderAdminSettings.langForm", "/api/user_language"),
   ("renderAdminSettings.addUserForm", "/api/add_user"),
   ("renderPersonnelSettings.langForm", "/api/user_language")]

/-- Every `navigator.sendBeacon` call site in main.js (line 224). -/
def beaconCallSites : List (String × String) :=
  [("beforeunload", "/api/check_stop_cameras")]

/-- The endpoint allowlist of the claim. -/
def allowedEndpoints : List String :=
  ["/api/status", "/api/start_cameras", "/api/stop_cameras",
   "/api/check_stop_cameras", "/api/video_feed", "/api/upload_frame",
   "/api/cameras", "/api/alerts/resolve", "/api/user_language",
   "/api/add_user"]

/-- The Socket.IO events subscribed via `socket.on` (main.js lines 69
and 75), in source order. -/
def subscribedSocketEvents : List String :=
  ["pending_detection", "high_threat"]

/-- The namespace passed to `io(...)` (main.js line 38). -/
def socketNamespace : String := "/stream"

/- ## Timer registrations (C4) -/

/-- Kinds of timer the code registers: `addInterval` wraps `setInterval`
(main.js lines 27-31); `selfTimeout` is a `setTimeout` that reschedules
itself (main.js line 313). -/
inductive TimerKind where
  | interval
  | selfTimeout
deriving DecidableEq

/-- One timer registration: the registering function, the kind, the API
path the timer callback requests, and the period in milliseconds. -/
structure TimerReg where
  site : String
  kind : TimerKind
  path : String
  periodMs : Nat
deriving DecidableEq

/-- All timer registrations in main.js: `addInterval(checkAndSwap, 2000)`
on line 277, the dashboard poll `addInterval(..., 2000)` on lines 334-342,
the personnel poll `addInterval(..., 2000)` on lines 377-385, and
`setTimeout(sendFrame, 1000)` on line 313. -/
def timerRegistrations : List TimerReg :=
  [⟨"attachLiveVideo", .interval, "/api/status", 2000⟩,
   ⟨"renderAdminDashboard", .interval, "/api/status", 2000⟩,
   ⟨"renderPersonnelDashboard", .interval, "/api/status", 2000⟩,
   ⟨"startBrowserCamera.sendFrame", .selfTimeout, "/api/upload_frame", 1000⟩]

/- ## Error dispositions (C1) -/

/-- What happens to the error of a failed operation in the visible code:
`alertDialog` is a catch that calls `alert(...)`; `consoleLog` is a catch
that calls `console.error`, `console.log` or `console.debug`;
`swallowed` is a catch with an empty body; `unhandled` means no enclosing
catch exists in the visible code, so the rejection escapes. -/
inductive ErrOutcome where
  | alertDialog
  | consoleLog
  | swallowed
  | unhandled
deriving DecidableEq

/-- The failable front-end operations of the claim (failed `api()`
requests, the Firebase sign-in, webcam access, status polls), one
constructor per call site in main.js. -/
inductive FrontEndOp where
  | firebaseSignIn
  | apiStartCameras
  | apiStopCameras
  | statusPollLiveVideo
  | statusInitialAdminDashboard
  | statusIntervalAdminDashboard
  | statusInitialPersonnelDashboard
  | statusIntervalPersonnelDashboard
  | webcamAccess
  | apiUploadFrame
  | apiResolveVerify
  | apiResolveDismiss
  | apiCamerasList
  | apiCamerasAdd
  | apiUserLanguageAdmin
  | apiAddUser
  | apiUserLanguagePersonnel
deriving DecidableEq, Fintype

/-- The disposition of each operation when it fails, read off the
try/catch structure of main.js:
sign-in line 115 is caught on 116-118 with `alert(err.message)`;
`/api/start_cameras` line 178 is caught on 180-182 with `console.error`;
`/api/stop_cameras` line 200 is caught on 202-204 with `console.error`;
the `checkAndSwap` status poll line 262 is caught on 271-273 with
`console.debug`; the initial dashboard status loads (lines 328 and 371)
have no enclosing catch; the dashboard interval polls (lines 334-342 and
377-385) are caught by `catch(e){}` with an empty body;
`getUserMedia` line 289 is caught on 317-319 with `console.error`;
`/api/upload_frame` line 304 is caught on 309-311 with `console.error`;
the `api` calls on lines 413, 420, 449, 466, 477, 487 and 515 have no
enclosing catch. -/
def onFailure : FrontEndOp → ErrOutcome
  | .firebaseSignIn => .alertDialog
  | .apiStartCameras => .consoleLog
  | .apiStopCameras => .consoleLog
  | .statusPollLiveVideo => .consoleLog
  | .statusInitialAdminDashboard => .unhandled
  | .statusIntervalAdminDashboard => .swallowed
  | .statusInitialPersonnelDashboard => .unhandled
  | .statusIntervalPersonnelDashboard => .swallowed
  | .webcamAccess => .consoleLog
  | .apiUploadFrame => .consoleLog
  | .apiResolveVerify => .unhandled
  | .apiResolveDismiss => .unhandled
  | .apiCamerasList => .unhandled
  | .apiCamerasAdd => .unhandled
  | .apiUserLanguageAdmin => .unhandled
  | .apiAddUser => .unhandled
  | .apiUserLanguagePersonnel => .unhandled

/-- The operations whose failures neither reach an `alert()` nor a
console call of the visible code. -/
def unhandledOrSwallowedOps : List FrontEndOp :=
  [.statusInitialAdminDashboard, .statusIntervalAdminDashboard,
   .statusInitialPersonnelDashboard, .statusIntervalPersonnelDashboard,
   .apiResolveVerify, .apiResolveDismiss, .apiCamerasList, .apiCamerasAdd,
   .apiUserLanguageAdmin, .apiAddUser, .apiUserLanguagePersonnel]

/- ## Failure behaviour of the polling and upload loops (C5) -/

/-- Observable actions a handler can take, used to state that failure
branches take no recovery action. -/
inductive Effect where
  | httpRequest (path : String)
  | alertDialog (msg : String)
  | consoleLog (msg : String)
  | setImgSrc (src : String)
  | playSiren
  | schedule (delayMs : Nat)
deriving DecidableEq

/-- The mutable state `attachLiveVideo` keeps on the image element
(main.js lines 257-258): its `src` and the `dataset.live` flag. -/
structure ImgState where
  src : String
  live : Bool
deriving DecidableEq

/-- `'/static/placeholder.jpg'` (main.js line 255). -/
def PLACEHOLDER_SRC : String := "/static/placeholder.jpg"

/-- One run of `checkAndSwap` (main.js lines 260-274) after its
`api('/api/status')` request has settled: on success with
`camerasActive` cameras the image source is swapped according to lines
264-270 (`liveSrc` is the `LIVE_SRC()` URL of line 256); on failure line
272 logs with `console.debug` and nothing else happens.  Returns the new
image state and the effects besides the one status request already
issued. -/
def checkAndSwapStep (st : ImgState) (liveSrc : String)
    (result : Except String Nat) : ImgState × List Effect :=
  match result with
  | .ok camerasActive =>
    if camerasActive > 0 && !st.live then
      ({ src := liveSrc, live := true }, [.setImgSrc liveSrc])
    else if camerasActive = 0 && st.live then
      ({ src := PLACEHOLDER_SRC, live := false }, [.setImgSrc PLACEHOLDER_SRC])
    else (st, [])
  | .error e => (st, [.consoleLog ("status poll failed " ++ e)])

/-- One run of `sendFrame` (main.js lines 296-314) after its
`api('/api/upload_frame')` request (issued only when the video element
has enough data) has settled.  On success the response is fed to
`maybePlaySiren` (modelled here as the single effect `playSiren` when
fired); on failure line 310 logs `upload_frame failed`.  Either way line
313 unconditionally reschedules itself after 1000 ms. -/
def sendFrameStep (ready : Bool) (sirenFires : Bool)
    (result : Except String Unit) : List Effect :=
  (if ready then
    [.httpRequest "/api/upload_frame"] ++
    (match result with
     | .ok _ => if sirenFires then [.playSiren] else []
     | .error e => [.consoleLog ("upload_frame failed " ++ e)])
  else []) ++ [.schedule 1000]

/-- `startBrowserCamera` (main.js lines 287-320) when `getUserMedia`
fails: the catch on lines 317-319 logs `Could not access webcam` and the
function ends; no stream is attached and `sendFrame` never starts. -/
def startBrowserCameraOnMediaError (e : String) : List Effect :=
  [.consoleLog ("Could not access webcam: " ++ e)]

/- ## Realtime Database accesses (C2) -/

/-- One Realtime Database reference as the code constructs it: a literal
top-level record family plus an optional dynamic child key.  The code
builds the path string as `'/' + family` or `'/' + family + '/' + key`. -/
structure RtdbRef where
  family : String
  childKey : Option String
deriving DecidableEq

/-- The path string the code passes to `rtdb.ref(...)`. -/
def RtdbRef.path (r : RtdbRef) : String :=
  "/" ++ r.family ++ (match r.childKey with
    | some k => "/" ++ k
    | none => "")

/-- Every `rtdb.ref(...)` / `firebase.database().ref(...)` in main.js,
given the signed-in uid: `'/users/' + uid` (line 123),
`'/activeAdmins/' + user.uid` (line 174), `'/activeAdmins'` (line 197)
and `'/detections'` (line 433). -/
def rtdbRefs (uid : String) : List RtdbRef :=
  [⟨"users", some uid⟩, ⟨"activeAdmins", some uid⟩,
   ⟨"activeAdmins", none⟩, ⟨"detections", none⟩]

/-- The record families of the claim. -/
def recordFamilies : List String :=
  ["users", "detections", "cameras", "activeAdmins"]

/-- The stored `users/<uid>` record as `resolveRole` reads it: only the
`role` field is consulted; `role : Option String` models a possibly
absent field. -/
structure UserRecord where
  role : Option String
deriving DecidableEq

/-- `resolveRole` (main.js lines 122-126) applied to the snapshot value
(`none` models `snap.val()` being null).  Line 124 substitutes `{}` for
a null value and line 125 returns `data.role || 'personnel'`, so a
missing or empty role yields the default `'personnel'`. -/
def resolveRole (snapVal : Option UserRecord) : String :=
  let data := snapVal.getD ⟨none⟩
  match data.role with
  | some r => if r = "" then "personnel" else r
  | none => "personnel"

/-- The role field actually stored in the database for a snapshot value:
no field when the record is absent. -/
def storedRole (snapVal : Option UserRecord) : Option String :=
  snapVal.bind (·.role)

/- ## Helper lemmas -/

lemma toDigitsCore_ne_nil (b : Nat) :
    ∀ (f n : Nat) (ds : List Char), ds ≠ [] → Nat.toDigitsCore b f n ds ≠ [] := by
  intro f
  induction f with
  | zero => intro n ds h; simpa [Nat.toDigitsCore] using h
  | succ f ih =>
    intro n ds h
    simp only [Nat.toDigitsCore]
    split
    · exact List.cons_ne_nil _ _
    · exact ih _ _ (List.cons_ne_nil _ _)

lemma toDigits_ne_nil (b n : Nat) : Nat.toDigits b n ≠ [] := by
  simp only [Nat.toDigits, Nat.toDigitsCore]
  split
  · exact List.cons_ne_nil _ _
  · exact toDigitsCore_ne_nil b _ _ _ (List.cons_ne_nil _ _)

lemma natToString_ne_empty (n : Nat) : toString n ≠ "" := by
  show Nat.repr n ≠ ""
  simp only [Nat.repr]
  intro h
  have hd : (Nat.toDigits 10 n).asString.data = String.data "" := congrArg String.data h
  simp only [List.asString] at hd
  exact toDigits_ne_nil 10 n hd

/-- Closed-form characterisation of `maybePlaySiren`: it plays exactly
when the siren element exists, the payload is high-threat and the
cooldown has elapsed; playing records `now`, otherwise the state is
untouched. -/
lemma maybePlaySiren_spec (b : Bool) (st : SirenState) (now : Int)
    (p : Option SirenPayload) :
    maybePlaySiren b st now p =
      if b = true ∧ isHighPayload p = true ∧
          SIREN_COOLDOWN_MS ≤ now - st.lastSirenAt
      then ({ lastSirenAt := now }, true) else (st, false) := by
  simp only [maybePlaySiren]
  split_ifs <;> simp_all
  omega

/-- When `route` invokes a renderer, the normalized hash is that
renderer's hash and the role permits it. -/
lemma route_renders_characterization (role hash : String) (p : Page)
    (hp : route true role hash = RouteResult.renders p) :
    pageHash p = normalizeHash hash ∧ permitted role p = true := by
  simp only [route] at hp
  split_ifs at hp with h0 h1 h2 h3 h4 h5 h6 h7 <;>
    first
      | exact RouteResult.noConfusion hp
      | (injection hp with h
         subst h
         simp_all [pageHash, permitted, Page.isAdmin])

/-- A signed-in run of `route` either invokes a renderer or redirects to
the dashboard hash the role ternary selects. -/
lemma route_signedIn_cases (role hash : String) :
    (∃ p : Page, route true role hash = RouteResult.renders p) ∨
    route true role hash = RouteResult.redirects
      (if role = "admin" then "#/admin/dashboard" else "#/personnel/dashboard") := by
  simp only [route, Bool.not_true, Bool.false_eq_true, if_false]
  split_ifs <;> first | exact Or.inl ⟨_, rfl⟩ | exact Or.inr rfl

/- ## Claim theorems -/

/-- C3: every HTTP request the front end issues through `api()` or
`navigator.sendBeacon` targets one of the ten allowed endpoints, and the
only Socket.IO events subscribed are `pending_detection` and
`high_threat`, on the one namespace the socket connects to. -/
theorem requests_within_endpoint_allowlist :
    (∀ s ∈ apiCallSites ++ beaconCallSites, s.2 ∈ allowedEndpoints) ∧
    subscribedSocketEvents = ["pending_detection", "high_threat"] ∧
    socketNamespace = "/stream" := by
  refine ⟨?_, rfl, rfl⟩
  decide

/-- Witness for C3 at a concrete call site. -/
theorem requests_within_endpoint_allowlist_witness :
    ("attachLiveVideo.checkAndSwap", "/api/status").2 ∈ allowedEndpoints :=
  requests_within_endpoint_allowlist.1
    ("attachLiveVideo.checkAndSwap", "/api/status") (by decide)

/-- C4: every repeating (`setInterval`-based) poll the code registers
requests `/api/status` and uses the same fixed period of 2000
milliseconds. -/
theorem status_polls_period_2000 :
    ∀ t ∈ timerRegistrations, t.kind = TimerKind.interval →
      t.path = "/api/status" ∧ t.periodMs = 2000 := by
  decide

/-- Witness for C4 at the live-video registration. -/
theorem status_polls_period_2000_witness :
    (⟨"attachLiveVideo", TimerKind.interval, "/api/status", 2000⟩ : TimerReg).path
        = "/api/status" ∧
    (⟨"attachLiveVideo", TimerKind.interval, "/api/status", 2000⟩ : TimerReg).periodMs
        = 2000 :=
  status_polls_period_2000
    ⟨"attachLiveVideo", TimerKind.interval, "/api/status", 2000⟩ (by decide) rfl

/-- C5: no retry, fallback or behaviour change on failure.  A failed
status poll leaves the image state unchanged and only logs; a failed
frame upload only logs, issues no second request, and the 1000-ms
reschedule is the same unconditional last action as on success; a failed
webcam access only logs and starts nothing. -/
theorem no_retry_on_failure (st : ImgState) (liveSrc e : String)
    (ready sirenFires : Bool) (r : Except String Unit) :
    checkAndSwapStep st liveSrc (Except.error e) =
      (st, [Effect.consoleLog ("status poll failed " ++ e)]) ∧
    sendFrameStep true sirenFires (Except.error e) =
      [Effect.httpRequest "/api/upload_frame",
       Effect.consoleLog ("upload_frame failed " ++ e),
       Effect.schedule 1000] ∧
    (sendFrameStep ready sirenFires r).getLast? = some (Effect.schedule 1000) ∧
    startBrowserCameraOnMediaError e =
      [Effect.consoleLog ("Could not access webcam: " ++ e)] := by
  refine ⟨rfl, rfl, ?_, rfl⟩
  cases ready <;> rcases r with u | msg <;> cases sirenFires <;> rfl

/-- Witness for C5 at a concrete failed poll and failed upload. -/
theorem no_retry_on_failure_witness :
    checkAndSwapStep ⟨PLACEHOLDER_SRC, false⟩ "/api/video_feed?ts=1"
        (Except.error "boom") =
      (⟨PLACEHOLDER_SRC, false⟩, [Effect.consoleLog "status poll failed boom"]) ∧
    sendFrameStep true false (Except.error "boom") =
      [Effect.httpRequest "/api/upload_frame",
       Effect.consoleLog "upload_frame failed boom",
       Effect.schedule 1000] :=
  ⟨(no_retry_on_failure ⟨PLACEHOLDER_SRC, false⟩ "/api/video_feed?ts=1" "boom"
      true false (Except.error "boom")).1,
   (no_retry_on_failure ⟨PLACEHOLDER_SRC, false⟩ "/api/video_feed?ts=1" "boom"
      true false (Except.error "boom")).2.1⟩

/-- C6: the siren is label-gated (it only plays on a payload carrying a
label in `HIGH_LABELS`, directly or in its detections) and debounced (a
play records the time, and any call within `SIREN_COOLDOWN_MS` of that
play does not play again). -/
theorem siren_label_gated_and_debounced (b : Bool) (st : SirenState)
    (now : Int) (p : Option SirenPayload)
    (hplay : (maybePlaySiren b st now p).2 = true) :
    isHighPayload p = true ∧
    (maybePlaySiren b st now p).1.lastSirenAt = now ∧
    ∀ (b' : Bool) (now' : Int) (p' : Option SirenPayload),
      now' - now < SIREN_COOLDOWN_MS →
      (maybePlaySiren b' (maybePlaySiren b st now p).1 now' p').2 = false := by
  have hs := maybePlaySiren_spec b st now p
  by_cases hc : (b = true ∧ isHighPayload p = true ∧
      SIREN_COOLDOWN_MS ≤ now - st.lastSirenAt)
  · rw [if_pos hc] at hs
    refine ⟨hc.2.1, by rw [hs], ?_⟩
    intro b' now' p' hlt
    rw [hs]
    rw [maybePlaySiren_spec]
    rw [if_neg ?hneg]
    case hneg =>
      rintro ⟨-, -, h3⟩
      simp only [SIREN_COOLDOWN_MS] at h3 hlt
      omega
  · rw [if_neg hc] at hs
    rw [hs] at hplay
    simp at hplay

/-- Witness for C6: a `weapons` payload at time 5000 plays; a call 1000
ms later does not. -/
theorem siren_label_gated_and_debounced_witness :
    isHighPayload (some ⟨some "weapons", none⟩) = true ∧
    (maybePlaySiren true ⟨0⟩ 5000 (some ⟨some "weapons", none⟩)).1.lastSirenAt
      = 5000 ∧
    (maybePlaySiren true
      (maybePlaySiren true ⟨0⟩ 5000 (some ⟨some "weapons", none⟩)).1
      6000 (some ⟨some "weapons", none⟩)).2 = false := by
  have h := siren_label_gated_and_debounced true ⟨0⟩ 5000
    (some ⟨some "weapons", none⟩) (by decide)
  exact ⟨h.1, h.2.1, h.2.2 true 6000 (some ⟨some "weapons", none⟩) (by decide)⟩

/-- C8: routing is role-gated.  Without a signed-in user `route` shows
the login screen; a page renderer is invoked only when the normalized
hash names that page and the current role permits it (admin pages need
role `admin`, personnel pages role `personnel`); when no permitted page
matches, `route` renders nothing and redirects to the dashboard hash of
the current role. -/
theorem route_role_gated (signedIn : Bool) (role hash : String) :
    (signedIn = false → route signedIn role hash = RouteResult.showsLogin) ∧
    (∀ p : Page, route signedIn role hash = RouteResult.renders p →
       pageHash p = normalizeHash hash ∧ permitted role p = true) ∧
    ((∀ p : Page, ¬(pageHash p = normalizeHash hash ∧ permitted role p = true)) →
       signedIn = true →
       route signedIn role hash = RouteResult.redirects
         (if role = "admin" then "#/admin/dashboard" else "#/personnel/dashboard")) := by
  refine ⟨?_, ?_, ?_⟩
  · intro h; subst h; simp [route]
  · intro p hp
    cases signedIn
    · exact absurd hp (by simp [route])
    · exact route_renders_characterization role hash p hp
  · intro hnone hsigned
    subst hsigned
    rcases route_signedIn_cases role hash with ⟨p, hp⟩ | h
    · exact absurd (route_renders_characterization role hash p hp) (hnone p)
    · exact h

/-- Witness for C8: login when signed out, a permitted admin render, and
a redirect for a personnel user on an admin hash. -/
theorem route_role_gated_witness :
    route false "admin" "" = RouteResult.showsLogin ∧
    (pageHash Page.adminDashboard = normalizeHash "#/admin/dashboard" ∧
     permitted "admin" Page.adminDashboard = true) ∧
    route true "personnel" "#/admin/dashboard" =
      RouteResult.redirects "#/personnel/dashboard" := by
  refine ⟨(route_role_gated false "admin" "").1 rfl, ?_, ?_⟩
  · exact (route_role_gated true "admin" "#/admin/dashboard").2.1
      Page.adminDashboard (by decide)
  · have h := (route_role_gated true "personnel" "#/admin/dashboard").2.2
      (by decide) rfl
    simpa using h

/-- The C1 claim as stated: every failable front-end operation, on
failure, surfaces its error as an alert dialog or a console log. -/
def allFailuresSurfaced : Prop :=
  ∀ op : FrontEndOp,
    onFailure op = ErrOutcome.alertDialog ∨ onFailure op = ErrOutcome.consoleLog

/-- C1 counterexample: the admin dashboard interval status poll
(main.js lines 334-342) swallows its error in an empty catch block, so
not every failure is alerted or logged. -/
theorem error_surface_counterexample :
    ¬ allFailuresSurfaced ∧
    onFailure FrontEndOp.statusIntervalAdminDashboard = ErrOutcome.swallowed := by
  refine ⟨fun h => ?_, rfl⟩
  rcases h FrontEndOp.statusIntervalAdminDashboard with h1 | h1 <;>
    simp [onFailure] at h1

/-- C1 amended: outside the listed exceptions every failure surfaces as
an alert dialog or a console log; the exceptions are either silently
swallowed (the two dashboard interval polls) or left unhandled by the
visible code. -/
theorem error_surface_amended :
    (∀ op : FrontEndOp, op ∉ unhandledOrSwallowedOps →
       onFailure op = ErrOutcome.alertDialog ∨
       onFailure op = ErrOutcome.consoleLog) ∧
    (∀ op ∈ unhandledOrSwallowedOps,
       onFailure op = ErrOutcome.swallowed ∨
       onFailure op = ErrOutcome.unhandled) := by
  constructor
  · intro op h
    cases op <;> first | exact absurd (by decide) h | decide
  · decide

/-- Witness for the amended C1 at concrete operations. -/
theorem error_surface_amended_witness :
    (onFailure FrontEndOp.firebaseSignIn = ErrOutcome.alertDialog ∨
     onFailure FrontEndOp.firebaseSignIn = ErrOutcome.consoleLog) ∧
    (onFailure FrontEndOp.apiResolveVerify = ErrOutcome.swallowed ∨
     onFailure FrontEndOp.apiResolveVerify = ErrOutcome.unhandled) :=
  ⟨error_surface_amended.1 FrontEndOp.firebaseSignIn (by decide),
   error_surface_amended.2 FrontEndOp.apiResolveVerify (by decide)⟩

/-- The C2 claim's no-transformation part: reading a record field
returns exactly what is stored. -/
def roleReadsThroughUnchanged : Prop :=
  ∀ snapVal : Option UserRecord, some (resolveRole snapVal) = storedRole snapVal

/-- C2 counterexample: for a null snapshot (no stored record at all)
`resolveRole` returns the client-side default `personnel`, so the code
does not return record fields unchanged. -/
theorem rtdb_passthrough_counterexample :
    ¬ roleReadsThroughUnchanged ∧
    resolveRole none = "personnel" ∧ storedRole none = none := by
  refine ⟨fun h => ?_, rfl, rfl⟩
  have h1 := h none
  simp [resolveRole, storedRole] at h1

/-- C2 amended: every Realtime Database reference the code creates lies
under the record families of the claim; a stored, non-empty role is
returned unchanged; but a missing record, missing role or empty role is
defaulted to `personnel` on the client. -/
theorem rtdb_passthrough_amended :
    (∀ (uid : String) (r : RtdbRef), r ∈ rtdbRefs uid →
       r.family ∈ recordFamilies) ∧
    (∀ (snapVal : Option UserRecord) (r : String),
       storedRole snapVal = some r → r ≠ "" → resolveRole snapVal = r) ∧
    (∀ snapVal : Option UserRecord,
       storedRole snapVal = none ∨ storedRole snapVal = some "" →
       resolveRole snapVal = "personnel") := by
  refine ⟨?_, ?_, ?_⟩
  · intro uid r hr
    simp only [rtdbRefs, List.mem_cons, List.not_mem_nil, or_false] at hr
    rcases hr with h | h | h | h <;> subst h <;> simp [recordFamilies]
  · intro snapVal r hstored hne
    rcases snapVal with _ | u
    · simp [storedRole] at hstored
    · rcases u with ⟨_ | s⟩
      · simp [storedRole] at hstored
      · simp only [storedRole, Option.bind_some] at hstored
        injection hstored with h
        subst h
        simp [resolveRole, hne]
  · intro snapVal h
    rcases snapVal with _ | u
    · rfl
    · rcases u with ⟨_ | s⟩
      · rfl
      · rcases h with h | h
        · simp [storedRole] at h
        · simp only [storedRole, Option.bind_some] at h
          injection h with h
          subst h
          rfl

/-- Witness for the amended C2 at concrete inputs. -/
theorem rtdb_passthrough_amended_witness :
    (⟨"users", some "uid1"⟩ : RtdbRef).family ∈ recordFamilies ∧
    resolveRole (some ⟨some "admin"⟩) = "admin" ∧
    resolveRole (some ⟨none⟩) = "personnel" :=
  ⟨rtdb_passthrough_amended.1 "uid1" ⟨"users", some "uid1"⟩ (by decide),
   rtdb_passthrough_amended.2.1 (some ⟨some "admin"⟩) "admin" rfl (by decide),
   rtdb_passthrough_amended.2.2 (some ⟨none⟩) (Or.inl rfl)⟩

/-- C7 counterexample: a non-ok response whose body reads as the empty
string makes `api` throw `HTTP 500`, not the body text. -/
theorem api_empty_body_counterexample :
    api (⟨false, 500, some "", Except.ok 0⟩ : HttpResponse Nat) =
      Except.error "HTTP 500" ∧
    ("HTTP 500" : String) ≠ "" := by
  exact ⟨rfl, by decide⟩

/-- C7 amended: on a non-ok response `api` throws and never returns: the
message is the body text when it is non-empty, `HTTP <status>` when the
body reads as empty, and the bare status code string when the body
cannot be read; on an ok response `api` returns the outcome of parsing
the body as JSON. -/
theorem api_amended (α : Type) (res : HttpResponse α) :
    (res.ok = false →
       api res = Except.error (match res.textResult with
         | some t => if t = "" then "HTTP " ++ toString res.status else t
         | none => toString res.status) ∧
       ∀ v : α, api res ≠ Except.ok v) ∧
    (res.ok = true → api res = res.jsonResult) := by
  obtain ⟨ok, status, textR, jsonR⟩ := res
  constructor
  · intro h
    subst h
    constructor
    · rcases textR with _ | t
      · simp only [api, Option.getD]
        rw [if_pos (by decide : (!false) = true),
          if_neg (natToString_ne_empty status)]
      · rfl
    · intro v hv
      rcases textR with _ | t <;> simp [api] at hv
  · intro h
    subst h
    rfl

/-- Witness for the amended C7: a non-ok response with unreadable body
throws the status code; an ok response returns its parsed JSON. -/
theorem api_amended_witness :
    api (⟨false, 404, none, Except.ok 7⟩ : HttpResponse Nat) =
      Except.error "404" ∧
    api (⟨true, 200, some "body", Except.ok 7⟩ : HttpResponse Nat) =
      Except.ok 7 := by
  constructor
  · exact ((api_amended Nat ⟨false, 404, none, Except.ok 7⟩).1 rfl).1
  · exact (api_amended Nat ⟨true, 200, some "body", Except.ok 7⟩).2 rfl

end MallSurveillance
